import Mathlib

/-!
Shallow embedding of the recipe-generation pipeline of the
recipe-alchemy-nourish backend: the Gemini service module
(initializeGemini, generateRecipe, buildRecipePrompt), the zod
validation schemas (aiRecipeSchema and createRecipeSchema) and the
retry loop of the POST /api/recipes/generate route handler.
-/

namespace RecipeNourish

/-- JSON values as produced by JavaScript JSON.parse.  Numbers are kept
exact as rationals (a JSON numeric literal denotes an exact decimal
value; no claim in this development depends on IEEE-754 rounding).
Object fields are kept in parse order and may contain duplicate keys;
lookup takes the last binding, matching repeated property assignment
performed by JSON.parse. -/
inductive Json where
  | null
  | bool (b : Bool)
  | num (q : Rat)
  | str (s : String)
  | arr (elems : List Json)
  | obj (fields : List (String × Json))

/-- Whitespace accepted by JSON.parse between tokens. -/
def isJsonWs (c : Char) : Bool :=
  c = ' ' || c = '\t' || c = '\n' || c = '\r'

/-- Drop JSON token whitespace. -/
def skipWs (cs : List Char) : List Char :=
  cs.dropWhile isJsonWs

/-- Value of a hexadecimal digit, for \uXXXX escapes. -/
def hexVal (c : Char) : Option Nat :=
  if c.isDigit then some (c.toNat - 48)
  else if 'a' ≤ c ∧ c ≤ 'f' then some (c.toNat - 87)
  else if 'A' ≤ c ∧ c ≤ 'F' then some (c.toNat - 55)
  else none

/-- The character `{`. -/
def braceL : Char := Char.ofNat 123

/-- The character `}`. -/
def braceR : Char := Char.ofNat 125

/-- Parse the body of a JSON string literal (the opening quote already
consumed), returning the decoded characters and the remaining input.
Escape sequences follow the JSON grammar; raw control characters are
rejected.  (\uXXXX is decoded to the scalar of that code unit; the
UTF-16 surrogate-pair subtlety of JavaScript strings is not modelled
and no claim depends on it.) -/
def parseStrBody : Nat → List Char → Option (List Char × List Char)
  | 0, _ => none
  | _ + 1, [] => none
  | fuel + 1, c :: rest =>
    if c = '\"' then some ([], rest)
    else if c = '\\' then
      match rest with
      | [] => none
      | e :: rest2 =>
        let esc : Option (Char × List Char) :=
          if e = '\"' then some ('\"', rest2)
          else if e = '\\' then some ('\\', rest2)
          else if e = '/' then some ('/', rest2)
          else if e = 'b' then some (Char.ofNat 8, rest2)
          else if e = 'f' then some (Char.ofNat 12, rest2)
          else if e = 'n' then some ('\n', rest2)
          else if e = 'r' then some ('\r', rest2)
          else if e = 't' then some ('\t', rest2)
          else if e = 'u' then
            match rest2 with
            | h1 :: h2 :: h3 :: h4 :: rest3 =>
              match hexVal h1, hexVal h2, hexVal h3, hexVal h4 with
              | some v1, some v2, some v3, some v4 =>
                some (Char.ofNat (((v1 * 16 + v2) * 16 + v3) * 16 + v4), rest3)
              | _, _, _, _ => none
            | _ => none
          else none
        match esc with
        | none => none
        | some (ch, rest3) =>
          match parseStrBody fuel rest3 with
          | some (s, r) => some (ch :: s, r)
          | none => none
    else if c.toNat < 32 then none
    else
      match parseStrBody fuel rest with
      | some (s, r) => some (c :: s, r)
      | none => none

/-- Numeric value of a list of decimal digits. -/
def digitsToNat (ds : List Char) : Nat :=
  ds.foldl (fun acc c => acc * 10 + (c.toNat - 48)) 0

/-- Multiply an integer by a (possibly negative) power of ten, exactly. -/
def scaleByPow10 (m : Int) (k : Int) : Rat :=
  if 0 ≤ k then mkRat (m * (10 : Int) ^ k.toNat) 1
  else mkRat m ((10 : Nat) ^ (-k).toNat)

/-- Parse the fractional part of a JSON number: either absent, or a dot
followed by at least one digit. -/
def parseFrac : List Char → Option (List Char × List Char)
  | [] => some ([], [])
  | c :: rest =>
    if c = '.' then
      let ds := rest.takeWhile Char.isDigit
      if ds = [] then none else some (ds, rest.dropWhile Char.isDigit)
    else some ([], c :: rest)

/-- Parse the exponent part of a JSON number: either absent, or e/E with
an optional sign and at least one digit. -/
def parseExp : List Char → Option (Int × List Char)
  | [] => some (0, [])
  | c :: rest =>
    if c = 'e' ∨ c = 'E' then
      let signAndRest : Int × List Char :=
        match rest with
        | d :: r2 => if d = '+' then (1, r2) else if d = '-' then (-1, r2) else (1, rest)
        | [] => (1, rest)
      let ds := signAndRest.2.takeWhile Char.isDigit
      if ds = [] then none
      else some (signAndRest.1 * (digitsToNat ds : Int), signAndRest.2.dropWhile Char.isDigit)
    else some (0, c :: rest)

/-- Parse a JSON number (sign, integer part without leading zeros,
optional fraction, optional exponent) into an exact rational. -/
def parseNumber (cs : List Char) : Option (Rat × List Char) :=
  let signAndRest : Bool × List Char :=
    match cs with
    | c :: rest => if c = '-' then (true, rest) else (false, cs)
    | [] => (false, cs)
  let cs1 := signAndRest.2
  let intDs := cs1.takeWhile Char.isDigit
  let cs2 := cs1.dropWhile Char.isDigit
  if intDs = [] then none
  else if 1 < intDs.length ∧ intDs.head? = some '0' then none
  else
    match parseFrac cs2 with
    | none => none
    | some (fracDs, cs3) =>
      match parseExp cs3 with
      | none => none
      | some (e, cs4) =>
        let mant : Nat := digitsToNat (intDs ++ fracDs)
        let m : Int := if signAndRest.1 then -(mant : Int) else (mant : Int)
        some (scaleByPow10 m (e - (fracDs.length : Int)), cs4)

/-- Consume an expected literal word, character by character. -/
def stripLit : List Char → List Char → Option (List Char)
  | [], cs => some cs
  | _ :: _, [] => none
  | l :: ls, c :: cs => if c = l then stripLit ls cs else none

mutual

/-- Parse one JSON value (fuelled recursive-descent мirror of the
JSON.parse grammar). -/
def parseValue : Nat → List Char → Option (Json × List Char)
  | 0, _ => none
  | fuel + 1, cs0 =>
    match skipWs cs0 with
    | [] => none
    | c :: rest =>
      if c = '\"' then
        match parseStrBody (rest.length + 1) rest with
        | some (s, r) => some (.str ⟨s⟩, r)
        | none => none
      else if c = '-' ∨ c.isDigit then
        match parseNumber (c :: rest) with
        | some (q, r) => some (.num q, r)
        | none => none
      else if c = 't' then
        match stripLit "true".data (c :: rest) with
        | some r => some (.bool true, r)
        | none => none
      else if c = 'f' then
        match stripLit "false".data (c :: rest) with
        | some r => some (.bool false, r)
        | none => none
      else if c = 'n' then
        match stripLit "null".data (c :: rest) with
        | some r => some (.null, r)
        | none => none
      else if c = '[' then
        match skipWs rest with
        | [] => none
        | c2 :: r2 =>
          if c2 = ']' then some (.arr [], r2)
          else
            match parseElems fuel (c2 :: r2) with
            | some (vs, r) => some (.arr vs, r)
            | none => none
      else if c = braceL then
        match skipWs rest with
        | [] => none
        | c2 :: r2 =>
          if c2 = braceR then some (.obj [], r2)
          else
            match parseMembers fuel (c2 :: r2) with
            | some (ms, r) => some (.obj ms, r)
            | none => none
      else none

/-- Parse array elements after the opening bracket (at least one). -/
def parseElems : Nat → List Char → Option (List Json × List Char)
  | 0, _ => none
  | fuel + 1, cs =>
    match parseValue fuel cs with
    | none => none
    | some (v, r1) =>
      match skipWs r1 with
      | [] => none
      | c :: r3 =>
        if c = ',' then
          match parseElems fuel r3 with
          | some (vs, r4) => some (v :: vs, r4)
          | none => none
        else if c = ']' then some ([v], r3)
        else none

/-- Parse object members after the opening brace (at least one). -/
def parseMembers : Nat → List Char → Option (List (String × Json) × List Char)
  | 0, _ => none
  | fuel + 1, cs =>
    match skipWs cs with
    | [] => none
    | c :: rest =>
      if c = '\"' then
        match parseStrBody (rest.length + 1) rest with
        | none => none
        | some (k, r1) =>
          match skipWs r1 with
          | [] => none
          | c2 :: r3 =>
            if c2 = ':' then
              match parseValue fuel r3 with
              | none => none
              | some (v, r4) =>
                match skipWs r4 with
                | [] => none
                | c3 :: r6 =>
                  if c3 = ',' then
                    match parseMembers fuel r6 with
                    | some (ms, r7) => some ((⟨k⟩, v) :: ms, r7)
                    | none => none
                  else if c3 = braceR then some ([(⟨k⟩, v)], r6)
                  else none
            else none
      else none

end

/-- JSON.parse: parse one value, then require only trailing whitespace.
Any JSON value (also a bare number, string, boolean or null) is a legal
top level, as for JavaScript JSON.parse. -/
def jsonParse (s : String) : Option Json :=
  match parseValue (2 * s.data.length + 2) s.data with
  | some (v, rest) => if skipWs rest = [] then some v else none
  | none => none

/-! JavaScript string primitives used by the Gemini service, modelled on
the character list underlying a Lean string. -/

/-- Boolean test that `p` occurs at the head of `s` (character lists). -/
def hasLead : List Char → List Char → Bool
  | [], _ => true
  | _ :: _, [] => false
  | p :: ps, c :: cs => p = c && hasLead ps cs

/-- JavaScript String.prototype.startsWith. -/
def jsStartsWith (s pat : String) : Bool :=
  hasLead pat.data s.data

/-- JavaScript String.prototype.endsWith (via reversed character lists). -/
def jsEndsWith (s pat : String) : Bool :=
  hasLead pat.data.reverse s.data.reverse

/-- Whitespace removed by JavaScript String.prototype.trim: the JSON
whitespace characters plus vertical tab, form feed, no-break space and
the byte-order mark (the further exotic Unicode space characters are
not modelled; no claim mentions them). -/
def isJsTrimWs (c : Char) : Bool :=
  isJsonWs c || c = Char.ofNat 11 || c = Char.ofNat 12 || c = Char.ofNat 160 ||
    c = Char.ofNat 65279

/-- JavaScript String.prototype.trim. -/
def jsTrim (s : String) : String :=
  ⟨((s.data.dropWhile isJsTrimWs).reverse.dropWhile isJsTrimWs).reverse⟩

/-- Effect of `replace(/^(pat)/, "")`: strip `pat` from the front when it
occurs there, otherwise leave the string unchanged. -/
def stripHead (pat t : String) : String :=
  if jsStartsWith t pat then ⟨t.data.drop pat.data.length⟩ else t

/-- Effect of `replace(/\n` followed by three backticks and `$/, "")`:
strip the four-character closing fence from the end when it occurs
there, otherwise leave the string unchanged. -/
def stripClosingFence (t : String) : String :=
  if jsEndsWith t "\n```" then ⟨(t.data.reverse.drop 4).reverse⟩ else t

/-- The markdown-fence stripping performed by generateRecipe on the raw
provider text (after trimming): a leading fence tagged exactly `json`
(followed by a newline) or an untagged leading fence (followed by a
newline) is removed, together with a trailing fence preceded by a
newline.  Mirrors the two regex-replace branches of the source. -/
def stripCodeFences (t : String) : String :=
  if jsStartsWith t "```json" then
    stripClosingFence (stripHead "```json\n" t)
  else if jsStartsWith t "```" then
    stripClosingFence (stripHead "```\n" t)
  else t

/-- Failures that can escape one generateRecipe call, as distinguished
by the route handler and its retry loop. -/
inductive GenFailure where
  | configMissing
  | invalidJson
  | providerFailed (msg : String)
  | schemaInvalid

/-- The extraction step of generateRecipe: trim the raw provider text,
strip markdown code fences, then JSON.parse; a parse failure is the
SyntaxError branch rethrown as the invalid-JSON error. -/
def extractJson (text : String) : Except GenFailure Json :=
  match jsonParse (stripCodeFences (jsTrim text)) with
  | some v => .ok v
  | none => .error .invalidJson

/-! The two zod validators: aiRecipeSchema (aiResponseSchema.js), used
on the generation path, and createRecipeSchema (validators/schemas.js),
used on the manual POST /api/recipes path.  Each is modelled as a
function from a candidate JSON value to the zod output object (`none`
standing for a thrown ZodError). -/

/-- Last-binding lookup in a JSON object field list (JavaScript object
semantics: a later duplicate property overrides an earlier one). -/
def fieldsGet (fs : List (String × Json)) (k : String) : Option Json :=
  fs.foldl (fun acc p => if p.1 = k then some p.2 else acc) none

/-- Property lookup on a JSON value (none on non-objects). -/
def jGet (j : Json) (k : String) : Option Json :=
  match j with
  | .obj fs => fieldsGet fs k
  | _ => none

/-- Coerce to a JSON string (z.string()). -/
def asString : Json → Option String
  | .str s => some s
  | _ => none

/-- Coerce to a JSON boolean (z.boolean()). -/
def asBool : Json → Option Bool
  | .bool b => some b
  | _ => none

/-- Coerce to a JSON number (z.number()). -/
def asNum : Json → Option Rat
  | .num q => some q
  | _ => none

/-- z.string().min(lo).  JavaScript string length is modelled by the
character count; they agree outside the astral plane and every string
below is ASCII. -/
def vStrMin (lo : Nat) (j : Json) : Option String := do
  let s ← asString j
  if lo ≤ s.length then some s else none

/-- z.string().min(lo).max(hi). -/
def vStrMinMax (lo hi : Nat) (j : Json) : Option String := do
  let s ← asString j
  if lo ≤ s.length ∧ s.length ≤ hi then some s else none

/-- z.number().int().min(lo).max(hi).  A zod chain applies every check
to the same number, so acceptance is their conjunction; on an integer
rational the bound checks coincide with bounds on the numerator. -/
def vIntBetween (lo hi : Int) (j : Json) : Option Rat := do
  let q ← asNum j
  if q.den = 1 ∧ lo ≤ q.num ∧ q.num ≤ hi then some q else none

/-- z.number().int().positive(). -/
def vIntPositive (j : Json) : Option Rat := do
  let q ← asNum j
  if q.den = 1 ∧ 0 < q.num then some q else none

/-- z.enum(values). -/
def vEnum (values : List String) (j : Json) : Option String := do
  let s ← asString j
  if s ∈ values then some s else none

/-- z.array(elem).min(lo): every element must satisfy the element
schema and at least `lo` elements are required. -/
def vArrayMin (elem : Json → Option α) (lo : Nat) (j : Json) : Option (List α) :=
  match j with
  | .arr xs => do
    let ys ← xs.mapM elem
    if lo ≤ ys.length then some ys else none
  | _ => none

/-- z.array(elem) without a length bound. -/
def vArray (elem : Json → Option α) (j : Json) : Option (List α) :=
  vArrayMin elem 0 j

/-- A required object field: an absent or invalid value is rejected. -/
def fieldReq (f : Json → Option α) : Option Json → Option α
  | none => none
  | some j => f j

/-- An optional field with a default (covers both `.default(d)` and
`.optional().default(d)`): an absent field becomes the default, a
present field must satisfy the inner schema. -/
def fieldD (f : Json → Option α) (d : α) : Option Json → Option α
  | none => some d
  | some j => f j

/-- An optional field without a default: an absent field stays absent
(zod omits the key from the parsed output object). -/
def fieldOpt (f : Json → Option α) : Option Json → Option (Option α)
  | none => some none
  | some j => (f j).map some

/-- Key/value entry in an output object for a field that may have been
omitted. -/
def optEntry (k : String) (v : Option Json) : List (String × Json) :=
  match v with
  | none => []
  | some j => [(k, j)]

/-- Approximation of the zod `.url()` check (`new URL(s)` succeeding):
a nonempty alphabetic scheme, `://`, a nonempty remainder, and no
whitespace.  No theorem below depends on this function: every concrete
candidate in this development leaves the URL-checked fields absent or
empty, and both branches of the code treat them identically there. -/
def zodIsUrl (s : String) : Bool :=
  match s.splitOn "://" with
  | scheme :: rest :: _ =>
    scheme ≠ "" && scheme.data.all Char.isAlpha && rest ≠ "" &&
      s.data.all (fun c => !isJsTrimWs c)
  | _ => false

/-- z.string().url().optional().or(z.literal('')), the recurring zod
pattern of createRecipeSchema: an absent field stays absent, a URL or
the empty string passes through, anything else is rejected. -/
def fieldUrlOrEmpty : Option Json → Option (Option String)
  | none => some none
  | some j => do
    let s ← asString j
    if zodIsUrl s then some (some s)
    else if s = "" then some (some "")
    else none

/-- Output object of the AI nutritionSchema (assembled apart from the
field checks so that each validator stays small for the compiler). -/
def mkNutritionAIOut (protein carbs fat fiber sodium sugar : String)
    (saturatedFat cholesterol : Option String) : Json :=
  Json.obj ([("protein", Json.str protein), ("carbs", Json.str carbs),
    ("fat", Json.str fat), ("fiber", Json.str fiber),
    ("sodium", Json.str sodium), ("sugar", Json.str sugar)] ++
    optEntry "saturatedFat" (saturatedFat.map Json.str) ++
    optEntry "cholesterol" (cholesterol.map Json.str))

/-- nutritionSchema of aiResponseSchema.js: protein, carbs, fat and
fiber are required nonempty strings; sodium and sugar default to "0mg"
and "0g"; saturatedFat and cholesterol are optional without default. -/
def vNutritionAI (j : Json) : Option Json :=
  match j with
  | .obj fs => do
    let protein ← fieldReq (vStrMin 1) (fieldsGet fs "protein")
    let carbs ← fieldReq (vStrMin 1) (fieldsGet fs "carbs")
    let fat ← fieldReq (vStrMin 1) (fieldsGet fs "fat")
    let fiber ← fieldReq (vStrMin 1) (fieldsGet fs "fiber")
    let sodium ← fieldD asString "0mg" (fieldsGet fs "sodium")
    let sugar ← fieldD asString "0g" (fieldsGet fs "sugar")
    let saturatedFat ← fieldOpt asString (fieldsGet fs "saturatedFat")
    let cholesterol ← fieldOpt asString (fieldsGet fs "cholesterol")
    some (mkNutritionAIOut protein carbs fat fiber sodium sugar saturatedFat cholesterol)
  | _ => none

/-- Output object of the manual-path nutritionSchema. -/
def mkNutritionCreateOut (protein carbs fat fiber : String)
    (sodium sugar saturatedFat cholesterol : Option String) : Json :=
  Json.obj ([("protein", Json.str protein), ("carbs", Json.str carbs),
    ("fat", Json.str fat), ("fiber", Json.str fiber)] ++
    optEntry "sodium" (sodium.map Json.str) ++
    optEntry "sugar" (sugar.map Json.str) ++
    optEntry "saturatedFat" (saturatedFat.map Json.str) ++
    optEntry "cholesterol" (cholesterol.map Json.str))

/-- nutritionSchema of validators/schemas.js: as the AI one, but sodium
and sugar are plain optionals without defaults. -/
def vNutritionCreate (j : Json) : Option Json :=
  match j with
  | .obj fs => do
    let protein ← fieldReq (vStrMin 1) (fieldsGet fs "protein")
    let carbs ← fieldReq (vStrMin 1) (fieldsGet fs "carbs")
    let fat ← fieldReq (vStrMin 1) (fieldsGet fs "fat")
    let fiber ← fieldReq (vStrMin 1) (fieldsGet fs "fiber")
    let sodium ← fieldOpt asString (fieldsGet fs "sodium")
    let sugar ← fieldOpt asString (fieldsGet fs "sugar")
    let saturatedFat ← fieldOpt asString (fieldsGet fs "saturatedFat")
    let cholesterol ← fieldOpt asString (fieldsGet fs "cholesterol")
    some (mkNutritionCreateOut protein carbs fat fiber sodium sugar saturatedFat cholesterol)
  | _ => none

/-- Output object of ingredientSchema. -/
def mkIngredientOut (amount item : String) (idv : Option String) : Json :=
  Json.obj ([("amount", Json.str amount), ("item", Json.str item)] ++
    optEntry "id" (idv.map Json.str))

/-- ingredientSchema, identical in both validator files: required
nonempty amount and item, optional id. -/
def vIngredient (j : Json) : Option Json :=
  match j with
  | .obj fs => do
    let amount ← fieldReq (vStrMin 1) (fieldsGet fs "amount")
    let item ← fieldReq (vStrMin 1) (fieldsGet fs "item")
    let idv ← fieldOpt asString (fieldsGet fs "id")
    some (mkIngredientOut amount item idv)
  | _ => none

/-- Output object of recipeStepSchema (both variants). -/
def mkStepOut (number : Rat) (title description : String)
    (tip duration imageUrl : Option String) : Json :=
  Json.obj ([("number", Json.num number), ("title", Json.str title),
    ("description", Json.str description)] ++
    optEntry "tip" (tip.map Json.str) ++
    optEntry "duration" (duration.map Json.str) ++
    optEntry "imageUrl" (imageUrl.map Json.str))

/-- recipeStepSchema of aiResponseSchema.js: positive integer step
number, nonempty title and description, optional tip, duration and
imageUrl (plain optional strings). -/
def vStepAI (j : Json) : Option Json :=
  match j with
  | .obj fs => do
    let number ← fieldReq vIntPositive (fieldsGet fs "number")
    let title ← fieldReq (vStrMin 1) (fieldsGet fs "title")
    let description ← fieldReq (vStrMin 1) (fieldsGet fs "description")
    let tip ← fieldOpt asString (fieldsGet fs "tip")
    let duration ← fieldOpt asString (fieldsGet fs "duration")
    let imageUrl ← fieldOpt asString (fieldsGet fs "imageUrl")
    some (mkStepOut number title description tip duration imageUrl)
  | _ => none

/-- recipeStepSchema of validators/schemas.js: as the AI one, except
imageUrl must be a URL or the empty string when present. -/
def vStepCreate (j : Json) : Option Json :=
  match j with
  | .obj fs => do
    let number ← fieldReq vIntPositive (fieldsGet fs "number")
    let title ← fieldReq (vStrMin 1) (fieldsGet fs "title")
    let description ← fieldReq (vStrMin 1) (fieldsGet fs "description")
    let tip ← fieldOpt asString (fieldsGet fs "tip")
    let duration ← fieldOpt asString (fieldsGet fs "duration")
    let imageUrl ← fieldUrlOrEmpty (fieldsGet fs "imageUrl")
    some (mkStepOut number title description tip duration imageUrl)
  | _ => none

/-- Output object of shoppingCategorySchema. -/
def mkShoppingCategoryOut (category : String) (items : List String) : Json :=
  Json.obj [("category", Json.str category),
    ("items", Json.arr (items.map Json.str))]

/-- shoppingCategorySchema, identical in both validator files: nonempty
category name and at least one string item. -/
def vShoppingCategory (j : Json) : Option Json :=
  match j with
  | .obj fs => do
    let category ← fieldReq (vStrMin 1) (fieldsGet fs "category")
    let items ← fieldReq (vArrayMin asString 1) (fieldsGet fs "items")
    some (mkShoppingCategoryOut category items)
  | _ => none

/-- Output entries for the first five fields of aiRecipeSchema. -/
def mkAIOutA (title subtitle description prepTime cookTime : String) :
    List (String × Json) :=
  [("title", Json.str title), ("subtitle", Json.str subtitle),
    ("description", Json.str description), ("prepTime", Json.str prepTime),
    ("cookTime", Json.str cookTime)]

/-- aiRecipeSchema fields title..cookTime (grouped to keep each
definition small for the compiler; the group split carries no
semantics: zod validates every field of the object independently). -/
def aiFieldsA (fs : List (String × Json)) : Option (List (String × Json)) := do
  let title ← fieldReq (vStrMinMax 3 200) (fieldsGet fs "title")
  let subtitle ← fieldD asString "" (fieldsGet fs "subtitle")
  let description ← fieldReq (vStrMinMax 10 2000) (fieldsGet fs "description")
  let prepTime ← fieldReq (vStrMin 1) (fieldsGet fs "prepTime")
  let cookTime ← fieldReq (vStrMin 1) (fieldsGet fs "cookTime")
  some (mkAIOutA title subtitle description prepTime cookTime)

/-- Output entries for the servings..imageUrl fields of aiRecipeSchema. -/
def mkAIOutB (servings calories : Rat) (difficulty : String)
    (tags : List String) (cuisine imageUrl : String) : List (String × Json) :=
  [("servings", Json.num servings), ("calories", Json.num calories),
    ("difficulty", Json.str difficulty),
    ("tags", Json.arr (tags.map Json.str)), ("cuisine", Json.str cuisine),
    ("imageUrl", Json.str imageUrl)]

/-- aiRecipeSchema fields servings..imageUrl. -/
def aiFieldsB (fs : List (String × Json)) : Option (List (String × Json)) := do
  let servings ← fieldReq (vIntBetween 1 100) (fieldsGet fs "servings")
  let calories ← fieldReq (vIntBetween 0 5000) (fieldsGet fs "calories")
  let difficulty ← fieldReq (vEnum ["Easy", "Medium", "Hard"]) (fieldsGet fs "difficulty")
  let tags ← fieldD (vArray asString) [] (fieldsGet fs "tags")
  let cuisine ← fieldD asString "International" (fieldsGet fs "cuisine")
  let imageUrl ← fieldD asString "" (fieldsGet fs "imageUrl")
  some (mkAIOutB servings calories difficulty tags cuisine imageUrl)

/-- Output entries for the nutrition..steps fields of aiRecipeSchema. -/
def mkAIOutC (nutrition : Json)
    (ingredients dressingIngredients steps : List Json) : List (String × Json) :=
  [("nutrition", nutrition), ("ingredients", Json.arr ingredients),
    ("dressingIngredients", Json.arr dressingIngredients),
    ("steps", Json.arr steps)]

/-- aiRecipeSchema fields nutrition..steps. -/
def aiFieldsC (fs : List (String × Json)) : Option (List (String × Json)) := do
  let nutrition ← fieldReq vNutritionAI (fieldsGet fs "nutrition")
  let ingredients ← fieldReq (vArrayMin vIngredient 1) (fieldsGet fs "ingredients")
  let dressingIngredients ← fieldD (vArray vIngredient) [] (fieldsGet fs "dressingIngredients")
  let steps ← fieldReq (vArrayMin vStepAI 1) (fieldsGet fs "steps")
  some (mkAIOutC nutrition ingredients dressingIngredients steps)

/-- Output entries for the shoppingList..isGenerated fields of
aiRecipeSchema. -/
def mkAIOutD (shoppingList : List Json) (youtubeId videoUrl : String)
    (isGenerated : Bool) : List (String × Json) :=
  [("shoppingList", Json.arr shoppingList), ("youtubeId", Json.str youtubeId),
    ("videoUrl", Json.str videoUrl), ("isGenerated", Json.bool isGenerated)]

/-- aiRecipeSchema fields shoppingList..isGenerated. -/
def aiFieldsD (fs : List (String × Json)) : Option (List (String × Json)) := do
  let shoppingList ← fieldD (vArray vShoppingCategory) [] (fieldsGet fs "shoppingList")
  let youtubeId ← fieldD asString "" (fieldsGet fs "youtubeId")
  let videoUrl ← fieldD asString "" (fieldsGet fs "videoUrl")
  let isGenerated ← fieldD asBool true (fieldsGet fs "isGenerated")
  some (mkAIOutD shoppingList youtubeId videoUrl isGenerated)

/-- validateAIRecipe: aiRecipeSchema.parse of aiResponseSchema.js,
returning the zod output object on success, `none` for a ZodError.
Unknown keys of the candidate are stripped; optional fields with
declared defaults are filled; optional fields without a default are
omitted when absent.  The output keys follow shape order: title,
subtitle, description, prepTime, cookTime, servings, calories,
difficulty, tags, cuisine, imageUrl, nutrition, ingredients,
dressingIngredients, steps, shoppingList, youtubeId, videoUrl,
isGenerated. -/
def validateAIRecipe (j : Json) : Option Json :=
  match j with
  | .obj fs => do
    let a ← aiFieldsA fs
    let b ← aiFieldsB fs
    let c ← aiFieldsC fs
    let d ← aiFieldsD fs
    some (Json.obj (a ++ b ++ c ++ d))
  | _ => none

/-- Output entries for the title..cookTime fields of createRecipeSchema
(title carries the `.trim()` transform of the schema chain, subtitle is
trimmed when present and omitted when absent). -/
def mkCreateOutA (title : String) (subtitle : Option String)
    (description prepTime cookTime : String) : List (String × Json) :=
  [("title", Json.str (jsTrim title))] ++
    optEntry "subtitle" (subtitle.map Json.str) ++
    [("description", Json.str description), ("prepTime", Json.str prepTime),
    ("cookTime", Json.str cookTime)]

/-- createRecipeSchema fields title..cookTime. -/
def createFieldsA (fs : List (String × Json)) : Option (List (String × Json)) := do
  let title ← fieldReq (vStrMinMax 3 200) (fieldsGet fs "title")
  let subtitle ← fieldOpt (fun v => (asString v).map jsTrim) (fieldsGet fs "subtitle")
  let description ← fieldReq (vStrMinMax 10 2000) (fieldsGet fs "description")
  let prepTime ← fieldReq (vStrMin 1) (fieldsGet fs "prepTime")
  let cookTime ← fieldReq (vStrMin 1) (fieldsGet fs "cookTime")
  some (mkCreateOutA title subtitle description prepTime cookTime)

/-- Output entries for the servings..imageUrl fields of
createRecipeSchema. -/
def mkCreateOutB (servings calories : Rat) (difficulty : String)
    (tags : List String) (cuisine imageUrl : Option String) :
    List (String × Json) :=
  [("servings", Json.num servings), ("calories", Json.num calories),
    ("difficulty", Json.str difficulty),
    ("tags", Json.arr (tags.map Json.str))] ++
    optEntry "cuisine" (cuisine.map Json.str) ++
    optEntry "imageUrl" (imageUrl.map Json.str)

/-- createRecipeSchema fields servings..imageUrl. -/
def createFieldsB (fs : List (String × Json)) : Option (List (String × Json)) := do
  let servings ← fieldReq (vIntBetween 1 100) (fieldsGet fs "servings")
  let calories ← fieldReq (vIntBetween 0 5000) (fieldsGet fs "calories")
  let difficulty ← fieldReq (vEnum ["Easy", "Medium", "Hard"]) (fieldsGet fs "difficulty")
  let tags ← fieldD (vArray asString) [] (fieldsGet fs "tags")
  let cuisine ← fieldOpt asString (fieldsGet fs "cuisine")
  let imageUrl ← fieldUrlOrEmpty (fieldsGet fs "imageUrl")
  some (mkCreateOutB servings calories difficulty tags cuisine imageUrl)

/-- Output entries for the nutrition..steps fields of
createRecipeSchema. -/
def mkCreateOutC (nutrition : Json) (ingredients : List Json)
    (dressingIngredients : Option (List Json)) (steps : List Json) :
    List (String × Json) :=
  [("nutrition", nutrition), ("ingredients", Json.arr ingredients)] ++
    optEntry "dressingIngredients" (dressingIngredients.map Json.arr) ++
    [("steps", Json.arr steps)]

/-- createRecipeSchema fields nutrition..steps. -/
def createFieldsC (fs : List (String × Json)) : Option (List (String × Json)) := do
  let nutrition ← fieldReq vNutritionCreate (fieldsGet fs "nutrition")
  let ingredients ← fieldReq (vArrayMin vIngredient 1) (fieldsGet fs "ingredients")
  let dressingIngredients ← fieldOpt (vArray vIngredient) (fieldsGet fs "dressingIngredients")
  let steps ← fieldReq (vArrayMin vStepCreate 1) (fieldsGet fs "steps")
  some (mkCreateOutC nutrition ingredients dressingIngredients steps)

/-- Output entries for the shoppingList..generationParams fields of
createRecipeSchema. -/
def mkCreateOutD (shoppingList : List Json) (youtubeId videoUrl : Option String)
    (isGenerated : Bool) (generationParams : Option Json) :
    List (String × Json) :=
  [("shoppingList", Json.arr shoppingList)] ++
    optEntry "youtubeId" (youtubeId.map Json.str) ++
    optEntry "videoUrl" (videoUrl.map Json.str) ++
    [("isGenerated", Json.bool isGenerated)] ++
    optEntry "generationParams" generationParams

/-- createRecipeSchema fields shoppingList..generationParams. -/
def createFieldsD (fs : List (String × Json)) : Option (List (String × Json)) := do
  let shoppingList ← fieldD (vArray vShoppingCategory) [] (fieldsGet fs "shoppingList")
  let youtubeId ← fieldOpt asString (fieldsGet fs "youtubeId")
  let videoUrl ← fieldUrlOrEmpty (fieldsGet fs "videoUrl")
  let isGenerated ← fieldD asBool false (fieldsGet fs "isGenerated")
  let generationParams ← fieldOpt some (fieldsGet fs "generationParams")
  some (mkCreateOutD shoppingList youtubeId videoUrl isGenerated generationParams)

/-- createRecipeSchema.parse of validators/schemas.js, applied by the
manual POST /api/recipes route: same core bounds as validateAIRecipe
but a trimmed title, trimmed optional subtitle, URL checks on
imageUrl/videoUrl and step imageUrl, fewer defaults (cuisine,
youtubeId, dressingIngredients and nutrition sodium/sugar are bare
optionals), isGenerated defaulting to false, and a free-form optional
generationParams. -/
def validateCreateRecipe (j : Json) : Option Json :=
  match j with
  | .obj fs => do
    let a ← createFieldsA fs
    let b ← createFieldsB fs
    let c ← createFieldsC fs
    let d ← createFieldsD fs
    some (Json.obj (a ++ b ++ c ++ d))
  | _ => none

/-! The prompt builder of the Gemini service (buildRecipePrompt). -/

/-- The parameter object received by buildRecipePrompt, with the
destructuring defaults of its first statement.  The three numeric caps
are absent-able; JavaScript truthiness makes the value 0 behave like an
absent cap, which the rendering below reproduces.  The string-typed
fields use "" for the absent case, exactly as the destructuring
defaults do. -/
structure GenParams where
  dietaryPreferences : List String := []
  allergies : List String := []
  nutritionalFocus : String := ""
  cuisineType : String := ""
  maxPrepTime : Option Nat := none
  maxCookTime : Option Nat := none
  maxCalories : Option Nat := none
  servings : Nat := 4
  difficulty : String := "Medium"
  availableIngredients : List String := []
  excludeIngredients : List String := []
  mealType : String := ""

/-- JavaScript Array.prototype.join. -/
def joinSep (sep : String) : List String → String
  | [] => ""
  | [a] => a
  | a :: b :: rest => a ++ sep ++ joinSep sep (b :: rest)

/-- Truthiness of an optional numeric cap (`if (maxPrepTime)`):
undefined and 0 are falsy. -/
def capLine (label : String) (suffix : String) : Option Nat → List String
  | none => []
  | some n => if n = 0 then [] else [label ++ toString n ++ suffix]

/-- The constraints array built by buildRecipePrompt, one line per
non-empty field, in the declared order. -/
def promptConstraints (p : GenParams) : List String :=
  (if p.dietaryPreferences ≠ [] then
    ["Dietary preferences: " ++ joinSep ", " p.dietaryPreferences] else []) ++
  (if p.allergies ≠ [] then
    ["STRICT ALLERGIES (must avoid): " ++ joinSep ", " p.allergies] else []) ++
  (if p.nutritionalFocus ≠ "" then
    ["Nutritional focus: " ++ p.nutritionalFocus] else []) ++
  (if p.cuisineType ≠ "" then
    ["Cuisine type: " ++ p.cuisineType] else []) ++
  capLine "Maximum prep time: " " minutes" p.maxPrepTime ++
  capLine "Maximum cook time: " " minutes" p.maxCookTime ++
  capLine "Maximum calories per serving: " "" p.maxCalories ++
  (if p.availableIngredients ≠ [] then
    ["Prefer using these ingredients: " ++ joinSep ", " p.availableIngredients] else []) ++
  (if p.excludeIngredients ≠ [] then
    ["Must NOT use: " ++ joinSep ", " p.excludeIngredients] else [])

/-- The fixed critical-rules block of the prompt template. -/
def promptRules : String :=
  "\n\nCRITICAL RULES:\n1. Create an ORIGINAL recipe, not a copy of existing recipes\n2. Ensure all ingredients are safe and realistic\n3. Respect ALL dietary restrictions and allergies\n4. Provide accurate nutritional information\n5. Include practical cooking instructions\n6. Time estimates must be realistic\n\nOUTPUT FORMAT:\nReturn ONLY valid JSON matching this EXACT structure (no markdown, no explanations):\n\n"

/-- The literal output-schema template of the prompt up to the servings
interpolation. -/
def promptSchemaA : String :=
  "\x7b\n  \"title\": \"Creative Recipe Name\",\n  \"subtitle\": \"Brief catchy description\",\n  \"description\": \"Detailed 2-3 sentence description highlighting key flavors and appeal\",\n  \"prepTime\": \"XX min\",\n  \"cookTime\": \"XX min\",\n  \"servings\": "

/-- The literal output-schema template between the difficulty and
cuisine interpolations. -/
def promptSchemaB : String :=
  ",\n  \"calories\": number (per serving),\n  \"difficulty\": \""

/-- The literal output-schema template after the cuisine interpolation:
nutrition block, ingredients, steps, shopping list and closing flags. -/
def promptSchemaC : String :=
  "\",\n  \"tags\": [\"tag1\", \"tag2\", \"tag3\"],\n  \"cuisine\": \""

/-- Tail of the output-schema template (after the cuisine value). -/
def promptSchemaD : String :=
  "\",\n  \"imageUrl\": \"\",\n  \"nutrition\": \x7b\n    \"protein\": \"XXg\",\n    \"carbs\": \"XXg\",\n    \"fat\": \"XXg\",\n    \"fiber\": \"XXg\",\n    \"sodium\": \"XXXmg\",\n    \"sugar\": \"XXg\"\n  \x7d,\n  \"ingredients\": [\n    \x7b \"amount\": \"1 cup\", \"item\": \"ingredient name\" \x7d\n  ],\n  \"dressingIngredients\": [],\n  \"steps\": [\n    \x7b\n      \"number\": 1,\n      \"title\": \"Step Title\",\n      \"description\": \"Detailed instructions for this step\",\n      \"tip\": \"Optional helpful tip\",\n      \"duration\": \"X min\"\n    \x7d\n  ],\n  \"shoppingList\": [\n    \x7b\n      \"category\": \"Produce\",\n      \"items\": [\"item1\", \"item2\"]\n    \x7d,\n    \x7b\n      \"category\": \"Protein\",\n      \"items\": [\"item1\"]\n    \x7d,\n    \x7b\n      \"category\": \"Pantry\",\n      \"items\": [\"item1\", \"item2\"]\n    \x7d\n  ],\n  \"youtubeId\": \"\",\n  \"videoUrl\": \"\",\n  \"isGenerated\": true\n\x7d\n\nGenerate the recipe now:"

/-- buildRecipePrompt: the template literal of the Gemini service,
rendered for a parameter object.  An empty mealType leaves its line
blank (the template newline stays); each constraint is prefixed with
a dash and the constraint lines are joined with newlines. -/
def buildRecipePrompt (p : GenParams) : String :=
  "You are a professional chef and certified nutritionist. Generate an ORIGINAL, creative, and realistic recipe.\n\nREQUIREMENTS:\n- Servings: " ++
  toString p.servings ++ "\n- Difficulty level: " ++ p.difficulty ++ "\n" ++
  (if p.mealType ≠ "" then "- Meal type: " ++ p.mealType else "") ++ "\n" ++
  joinSep "\n" ((promptConstraints p).map (fun c => "- " ++ c)) ++
  promptRules ++
  promptSchemaA ++ toString p.servings ++ promptSchemaB ++ p.difficulty ++
  promptSchemaC ++
  (if p.cuisineType ≠ "" then p.cuisineType else "International") ++
  promptSchemaD

/-! The module-level Gemini client state and initializeGemini. -/

/-- A GoogleGenerativeAI client object: the API key it was constructed
with, plus an allocation stamp so that constructing a new client is
observable in the model. -/
structure GeminiClient where
  apiKey : String
  stamp : Nat
deriving DecidableEq

/-- The model handle returned by genAI.getGenerativeModel, with the
fixed model name and generation configuration of the source (the two
fractional settings are exact decimals). -/
structure GenModel where
  client : GeminiClient
  name : String
  temperature : Rat
  topK : Nat
  topP : Rat
  maxOutputTokens : Nat
deriving DecidableEq

/-- The module-level mutable variables of the Gemini service: `genAI`
and `model` start as null.  `allocs` counts client constructions, so a
reconstruction would be visible as an increment. -/
structure GeminiState where
  genAI : Option GeminiClient := none
  model : Option GenModel := none
  allocs : Nat := 0
deriving DecidableEq

/-- The state of the module at load time. -/
def initialGeminiState : GeminiState := {}

/-- The model configuration that initializeGemini installs on a fresh
client. -/
def geminiModelOf (c : GeminiClient) : GenModel :=
  { client := c, name := "gemini-1.5-pro", temperature := mkRat 7 10,
    topK := 40, topP := mkRat 95 100, maxOutputTokens := 8192 }

/-- initializeGemini: throws when GEMINI_API_KEY is unset or empty
(JavaScript truthiness of `!process.env.GEMINI_API_KEY`); otherwise,
when `genAI` is still null, constructs the client and the model once;
in every case it returns the module-level `model` variable. -/
def initializeGemini (env : Option String) (st : GeminiState) :
    Except String (Option GenModel × GeminiState) :=
  match env with
  | none => .error "GEMINI_API_KEY environment variable is required"
  | some key =>
    if key = "" then .error "GEMINI_API_KEY environment variable is required"
    else
      match st.genAI with
      | none =>
        let client : GeminiClient := ⟨key, st.allocs⟩
        let m := geminiModelOf client
        .ok (some m, { genAI := some client, model := some m, allocs := st.allocs + 1 })
      | some _ => .ok (st.model, st)

/-! The retry loop of the POST /api/recipes/generate route handler. -/

/-- One provider interaction as seen by generateRecipe: the model call
either raises (transport or quota failure) or yields response text. -/
inductive ProviderReply where
  | raise (msg : String)
  | text (t : String)

/-- One call of generateRecipe, summarised over the provider reply:
initializeGemini throws the configuration error when the key is unset
or empty; then a provider throw is rethrown as a provider failure, and
provider text goes through trimming, fence-stripping and JSON.parse. -/
def generateRecipeCall (apiKey : Option String) (reply : ProviderReply) :
    Except GenFailure Json :=
  if apiKey = none ∨ apiKey = some "" then .error .configMissing
  else
    match reply with
    | .raise m => .error (.providerFailed m)
    | .text t => extractJson t

/-- One attempt of the route's retry loop: generateRecipe followed by
validateAIRecipe, a ZodError becoming the schema failure.  The loop
catches every one of these failures alike. -/
def attemptGeneration (apiKey : Option String) (reply : ProviderReply) :
    Except GenFailure Json :=
  match generateRecipeCall apiKey reply with
  | .error e => .error e
  | .ok raw =>
    match validateAIRecipe raw with
    | some out => .ok out
    | none => .error .schemaInvalid

/-- The maxRetries constant of the handler. -/
def maxRetries : Nat := 2

/-- Result of the handler's while loop alone. -/
inductive LoopResult where
  | succeeded (artifact : Json) (attempts : Nat)
  | failedAfterRetries (attempts : Nat)
  | brokeWithout

/-- The while loop of the handler: retryCount starts at 0; each
iteration runs one attempt (attempt i sees retryCount = i); on success
the loop breaks with the artifact; on any caught error retryCount is
incremented and, once it reaches maxRetries, the loop returns the
terminal failure; otherwise it sleeps one second (the delay does not
affect the result) and re-enters.  `attempts` counts generateRecipe
invocations.  The fuel argument only bounds the recursion; maxRetries
steps always suffice, and `brokeWithout` is the (unreachable for a
positive maxRetries) exit of the loop with no artifact. -/
def retryLoop (step : Nat → Except GenFailure Json) :
    Nat → Nat → LoopResult
  | 0, _ => .brokeWithout
  | fuel + 1, retryCount =>
    if retryCount < maxRetries then
      match step retryCount with
      | .ok a => .succeeded a (retryCount + 1)
      | .error _ =>
        if maxRetries ≤ retryCount + 1 then .failedAfterRetries (retryCount + 1)
        else retryLoop step fuel (retryCount + 1)
    else .brokeWithout

/-- Observable outcome of the POST /api/recipes/generate handler.
`created` is the 201 response carrying the recipe document handed to
persistence; `validationFailed` is the 500 AI_VALIDATION_FAILED
response produced inside the loop once the retries are consumed;
`serviceUnavailable` (503 AI_SERVICE_UNAVAILABLE, message keyed on
GEMINI_API_KEY) and `invalidResponse` (500 AI_INVALID_RESPONSE) are
the outer catch branches; `generationError` is the generic 500. -/
inductive GenOutcome where
  | created (recipeData : Json) (attempts : Nat)
  | validationFailed (attempts : Nat)
  | serviceUnavailable
  | invalidResponse
  | generationError

/-- The recipe document assembled after a successful loop:
`{ ...aiRecipeData, userId, isGenerated: true, generationParams }`,
the later literal properties overriding any spread ones.  (The spread
of a non-object contributes no properties; the validated artifact is
always an object.) -/
def buildRecipeDoc (artifact : Json) (uid : String) (params : Json) : Json :=
  match artifact with
  | .obj fs => .obj (fs ++ [("userId", .str uid), ("isGenerated", .bool true),
      ("generationParams", params)])
  | _ => .obj [("userId", .str uid), ("isGenerated", .bool true),
      ("generationParams", params)]

/-- The POST /api/recipes/generate handler over a sequence of provider
replies: the retry loop runs with attempt i seeing reply i; a loop
success becomes the 201 response with the assembled document, loop
exhaustion the 500 AI_VALIDATION_FAILED response.  Persistence
(Recipe.create) is the out-of-scope collaborator and is not modelled
as failing; the outer catch branches are reachable only through
collaborator throws, never from generation failures, which the loop
catches itself. -/
def postGenerateHandler (apiKey : Option String)
    (replies : Nat → ProviderReply) (uid : String) (params : Json) : GenOutcome :=
  match retryLoop (fun i => attemptGeneration apiKey (replies i)) maxRetries 0 with
  | .succeeded a n => .created (buildRecipeDoc a uid params) n
  | .failedAfterRetries n => .validationFailed n
  | .brokeWithout => .generationError

/-! Concrete probe values and auxiliary predicates used by the
theorems. -/

/-- Field list of a candidate for the output validator that is
schema-valid except possibly for its servings value: every required
field of aiRecipeSchema present and conforming, every optional field
left unspecified. -/
def servingsProbeFields (sv : Rat) : List (String × Json) :=
  [
    ("title", .str "Lemon Herb Rice"),
    ("description", .str "A bright and savory rice dish."),
    ("prepTime", .str "10 min"),
    ("cookTime", .str "20 min"),
    ("servings", .num sv),
    ("calories", .num 500),
    ("difficulty", .str "Medium"),
    ("nutrition", .obj [("protein", .str "10g"), ("carbs", .str "20g"),
      ("fat", .str "5g"), ("fiber", .str "3g")]),
    ("ingredients", .arr [.obj [("amount", .str "1 cup"), ("item", .str "rice")]]),
    ("steps", .arr [.obj [("number", .num 1), ("title", .str "Cook"),
      ("description", .str "Cook the rice over low heat.")]])]

/-- The probe candidate as a JSON object. -/
def servingsProbe (sv : Rat) : Json :=
  Json.obj (servingsProbeFields sv)

/-- A well-formed provider response: the end-to-end success text. -/
def e2eText : String :=
  "\x7b\"title\":\"Lemon Herb Rice\",\"description\":\"A bright and savory rice dish.\",\"prepTime\":\"10 min\",\"cookTime\":\"20 min\",\"servings\":4,\"calories\":500,\"difficulty\":\"Medium\",\"nutrition\":\x7b\"protein\":\"10g\",\"carbs\":\"20g\",\"fat\":\"5g\",\"fiber\":\"3g\"\x7d,\"ingredients\":[\x7b\"amount\":\"1 cup\",\"item\":\"rice\"\x7d],\"steps\":[\x7b\"number\":1,\"title\":\"Cook\",\"description\":\"Cook the rice over low heat.\"\x7d]\x7d"

/-- The recipe document produced by a successful end-to-end run on the
well-formed response. -/
def e2eDoc : Json :=
  match postGenerateHandler (some "api-key") (fun _ => .text e2eText)
      "user-1" Json.null with
  | .created r _ => r
  | _ => Json.null

/-- The needle occurs verbatim (contiguously) inside the haystack. -/
def strContains (hay needle : String) : Prop :=
  ∃ pre post, hay.data = pre ++ needle.data ++ post

/-! Theorems. -/

/-- The loop consults the attempt outcomes only for indices between the
current retryCount and maxRetries: two attempt sequences agreeing there
drive the loop identically. -/
theorem retryLoop_local (step step' : Nat → Except GenFailure Json) :
    ∀ fuel retryCount,
      (∀ i, retryCount ≤ i → i < maxRetries → step i = step' i) →
      retryLoop step fuel retryCount = retryLoop step' fuel retryCount := by
  intro fuel
  induction fuel with
  | zero => intro retryCount _; rfl
  | succ n ih =>
    intro retryCount hagree
    show retryLoop step (n + 1) retryCount = retryLoop step' (n + 1) retryCount
    unfold retryLoop
    by_cases hlt : retryCount < maxRetries
    · simp only [hlt, if_true]
      rw [hagree retryCount (Nat.le_refl _) hlt]
      cases step' retryCount with
      | ok a => rfl
      | error e =>
        by_cases hge : maxRetries ≤ retryCount + 1
        · simp [hge]
        · simp only [hge, if_false]
          exact ih (retryCount + 1) fun i h1 h2 =>
            hagree i (Nat.le_of_succ_le h1) h2
    · simp [hlt]

/-- An attempt with the API key absent fails with the configuration
error before the provider is consulted. -/
theorem attemptGeneration_noKey (reply : ProviderReply) :
    attemptGeneration none reply = .error .configMissing := rfl

/-- With a nonempty key, an attempt on provider text whose stripped
form does not parse fails with the invalid-JSON error. -/
theorem attemptGeneration_badText (apiKey t : String) (hkey : apiKey ≠ "")
    (hparse : jsonParse (stripCodeFences (jsTrim t)) = none) :
    attemptGeneration (some apiKey) (.text t) = .error .invalidJson := by
  unfold attemptGeneration generateRecipeCall extractJson
  simp [hkey, hparse]

/-- Claim C1 (code behaviour at the claim's failing input): when the
provider configuration is missing (GEMINI_API_KEY unset), the handler
does NOT short-circuit: the configuration error is caught by the retry
loop's catch-all, a second attempt is made, and the outcome is the 500
AI_VALIDATION_FAILED response after 2 attempts — never the 503
service-unavailable response that the handler's outer catch (and the
spec) reserve for this case. -/
theorem claim_C1 (replies : Nat → ProviderReply) (uid : String) (params : Json) :
    postGenerateHandler none replies uid params = .validationFailed 2 ∧
      postGenerateHandler none replies uid params ≠ .serviceUnavailable := by
  have hstep : ∀ i, attemptGeneration none (replies i) = .error .configMissing :=
    fun i => attemptGeneration_noKey (replies i)
  have hloop : postGenerateHandler none replies uid params = .validationFailed 2 := by
    unfold postGenerateHandler
    show (match retryLoop (fun i => attemptGeneration none (replies i)) maxRetries 0 with
      | .succeeded a n => GenOutcome.created (buildRecipeDoc a uid params) n
      | .failedAfterRetries n => GenOutcome.validationFailed n
      | .brokeWithout => GenOutcome.generationError) = GenOutcome.validationFailed 2
    rw [retryLoop_local _ (fun _ => Except.error GenFailure.configMissing) maxRetries 0
      (fun i _ _ => hstep i)]
    rfl
  exact ⟨hloop, by rw [hloop]; intro h; exact GenOutcome.noConfusion h⟩

/-- Claim C2: with a configured key and a provider whose text never
parses (after trimming and fence-stripping), the handler makes exactly
2 attempts and returns the terminal 500 AI_VALIDATION_FAILED response
(the surfacing of RetriesExhausted); moreover the outcome is unchanged
under any modification of the provider replies from index maxRetries
on, so a 3rd attempt never influences (nor is consulted by) the run,
and no individual retryable failure is returned — the loop's only
outputs are the terminal outcomes. -/
theorem claim_C2 (apiKey : String) (replies : Nat → ProviderReply)
    (uid : String) (params : Json) (hkey : apiKey ≠ "")
    (hbad : ∀ i, ∃ t, replies i = .text t ∧
      jsonParse (stripCodeFences (jsTrim t)) = none) :
    postGenerateHandler (some apiKey) replies uid params = .validationFailed 2 ∧
      ∀ replies' : Nat → ProviderReply,
        (∀ i, i < maxRetries → replies' i = replies i) →
        postGenerateHandler (some apiKey) replies' uid params = .validationFailed 2 := by
  have hstep : ∀ i, attemptGeneration (some apiKey) (replies i)
      = .error .invalidJson := by
    intro i
    obtain ⟨t, hre, hparse⟩ := hbad i
    rw [hre]
    exact attemptGeneration_badText apiKey t hkey hparse
  have hmain : ∀ r' : Nat → ProviderReply,
      (∀ i, i < maxRetries → r' i = replies i) →
      postGenerateHandler (some apiKey) r' uid params = .validationFailed 2 := by
    intro r' hr
    unfold postGenerateHandler
    rw [retryLoop_local (fun i => attemptGeneration (some apiKey) (r' i))
      (fun _ => Except.error GenFailure.invalidJson) maxRetries 0
      (fun i _ h2 => by show attemptGeneration _ (r' i) = _; rw [hr i h2]; exact hstep i)]
    rfl
  exact ⟨hmain replies (fun i _ => rfl), hmain⟩

/-- Claim C2 witness: a provider stub always answering `not json at
all` with a configured key. -/
theorem claim_C2_witness :
    postGenerateHandler (some "api-key") (fun _ => .text "not json at all")
        "user-1" .null = .validationFailed 2 :=
  (claim_C2 "api-key" (fun _ => .text "not json at all") "user-1" .null
    (by decide)
    (fun _ => ⟨"not json at all", rfl, rfl⟩)).1

/-- Two strings with the same character data are equal. -/
theorem strExt {a b : String} (h : a.data = b.data) : a = b := by
  cases a; cases b; cases h; rfl

/-- Character data of an appended string. -/
theorem strDataAppend (a b : String) : (a ++ b).data = a.data ++ b.data := by
  cases a; cases b; rfl

/-- Trimming leaves a json-tagged fenced block unchanged: it starts and
ends with a backtick, which is not whitespace. -/
theorem jsTrim_fencedJson (s : String) :
    jsTrim ("```json\n" ++ s ++ "\n```") = "```json\n" ++ s ++ "\n```" := by
  cases s with
  | mk l =>
    apply strExt
    show ((("```json\n".data ++ (l ++ "\n```".data)).dropWhile
        isJsTrimWs).reverse.dropWhile isJsTrimWs).reverse
      = "```json\n".data ++ (l ++ "\n```".data)
    have h1 : ("```json\n".data ++ (l ++ "\n```".data)).dropWhile isJsTrimWs
        = "```json\n".data ++ (l ++ "\n```".data) := rfl
    rw [h1, List.reverse_append, List.reverse_append]
    have h2 : (("\n```".data.reverse ++ l.reverse) ++ "```json\n".data.reverse).dropWhile
        isJsTrimWs
        = ("\n```".data.reverse ++ l.reverse) ++ "```json\n".data.reverse := rfl
    rw [h2, List.reverse_append, List.reverse_append, List.reverse_reverse,
      List.reverse_reverse, List.reverse_reverse]

/-- Trimming leaves an untagged fenced block unchanged. -/
theorem jsTrim_fencedPlain (s : String) :
    jsTrim ("```\n" ++ s ++ "\n```") = "```\n" ++ s ++ "\n```" := by
  cases s with
  | mk l =>
    apply strExt
    show ((("```\n".data ++ (l ++ "\n```".data)).dropWhile
        isJsTrimWs).reverse.dropWhile isJsTrimWs).reverse
      = "```\n".data ++ (l ++ "\n```".data)
    have h1 : ("```\n".data ++ (l ++ "\n```".data)).dropWhile isJsTrimWs
        = "```\n".data ++ (l ++ "\n```".data) := rfl
    rw [h1, List.reverse_append, List.reverse_append]
    have h2 : (("\n```".data.reverse ++ l.reverse) ++ "```\n".data.reverse).dropWhile
        isJsTrimWs
        = ("\n```".data.reverse ++ l.reverse) ++ "```\n".data.reverse := rfl
    rw [h2, List.reverse_append, List.reverse_append, List.reverse_reverse,
      List.reverse_reverse, List.reverse_reverse]

/-- Stripping the closing fence from a string that ends in one yields
the string back. -/
theorem stripClosingFence_append (s : String) :
    stripClosingFence (s ++ "\n```") = s := by
  cases s with
  | mk l =>
    unfold stripClosingFence jsEndsWith
    have hrev : (String.mk l ++ "\n```").data.reverse
        = "\n```".data.reverse ++ l.reverse := by
      show (l ++ "\n```".data).reverse = _
      rw [List.reverse_append]
    rw [hrev]
    have hcond : hasLead "\n```".data.reverse ("\n```".data.reverse ++ l.reverse)
        = true := rfl
    rw [hcond]
    apply strExt
    show (("\n```".data.reverse ++ l.reverse).drop 4).reverse = l
    have hdrop : ("\n```".data.reverse ++ l.reverse).drop 4 = l.reverse := rfl
    rw [hdrop, List.reverse_reverse]

/-- The fence stripper on a json-tagged block recovers the inner
content verbatim. -/
theorem stripCodeFences_json (s : String) :
    stripCodeFences ("```json\n" ++ s ++ "\n```") = s := by
  have hstart : jsStartsWith ("```json\n" ++ s ++ "\n```") "```json" = true := by
    cases s; rfl
  have hhead : stripHead "```json\n" ("```json\n" ++ s ++ "\n```")
      = s ++ "\n```" := by
    cases s with
    | mk l =>
      unfold stripHead
      have hc : jsStartsWith ("```json\n" ++ String.mk l ++ "\n```") "```json\n"
          = true := rfl
      rw [hc]
      apply strExt
      rfl
  unfold stripCodeFences
  rw [hstart]
  show stripClosingFence (stripHead "```json\n" ("```json\n" ++ s ++ "\n```"))
    = s
  rw [hhead, stripClosingFence_append]

/-- The fence stripper on an untagged block recovers the inner content
verbatim (the `json`-tag test cannot fire: the fourth character is the
newline). -/
theorem stripCodeFences_plain (s : String) :
    stripCodeFences ("```\n" ++ s ++ "\n```") = s := by
  have hjson : jsStartsWith ("```\n" ++ s ++ "\n```") "```json" = false := by
    cases s; rfl
  have hstart : jsStartsWith ("```\n" ++ s ++ "\n```") "```" = true := by
    cases s; rfl
  have hhead : stripHead "```\n" ("```\n" ++ s ++ "\n```") = s ++ "\n```" := by
    cases s with
    | mk l =>
      unfold stripHead
      have hc : jsStartsWith ("```\n" ++ String.mk l ++ "\n```") "```\n"
          = true := rfl
      rw [hc]
      apply strExt
      rfl
  unfold stripCodeFences
  rw [hjson, hstart]
  show stripClosingFence (stripHead "```\n" ("```\n" ++ s ++ "\n```")) = s
  rw [hhead, stripClosingFence_append]

/-- Claim C5 (amended): for every inner content, a fenced block tagged
`json` (and an untagged fenced block) extracts to exactly the result
of parsing the inner content directly — the fence markers are stripped
and the inner content is preserved verbatim; in particular the spec's
instance extracts to the object parsed from the bare text.  (Fences
with any other language tag are not handled; see the counterexample.) -/
theorem claim_C5 :
    (∀ s : String,
      extractJson ("```json\n" ++ s ++ "\n```")
        = (match jsonParse s with
          | some v => Except.ok v
          | none => Except.error GenFailure.invalidJson) ∧
      extractJson ("```\n" ++ s ++ "\n```")
        = (match jsonParse s with
          | some v => Except.ok v
          | none => Except.error GenFailure.invalidJson)) ∧
    extractJson "```json\n\x7b\"a\":1\x7d\n```"
      = Except.ok (Json.obj [("a", Json.num 1)]) := by
  refine ⟨fun s => ⟨?_, ?_⟩, rfl⟩
  · unfold extractJson
    rw [jsTrim_fencedJson, stripCodeFences_json]
  · unfold extractJson
    rw [jsTrim_fencedPlain, stripCodeFences_plain]

/-- Claim C5 counterexample: a fenced block with the language tag `js`
is not stripped (the code handles only the tag `json` or no tag), so
extraction fails even though the inner content parses on its own —
refuting the claim's "with or without a language tag" at this input. -/
theorem claim_C5_counterexample :
    extractJson "```js\n\x7b\"a\":1\x7d\n```" = Except.error GenFailure.invalidJson ∧
      jsonParse "\x7b\"a\":1\x7d" = some (Json.obj [("a", Json.num 1)]) :=
  ⟨rfl, rfl⟩

/-- Claim C4 (amended): extraction fails with the invalid-format error
exactly when JSON parsing of the trimmed, fence-stripped provider text
fails (malformed syntax, truncated output); the spec's malformed
instance fails accordingly; and such a failure is retryable — a first
attempt failing this way is followed by a second provider attempt
rather than a terminal error.  (A non-object top level is NOT an
extraction failure; see the counterexample.) -/
theorem claim_C4 :
    (∀ raw : String,
      extractJson raw = Except.error GenFailure.invalidJson ↔
        jsonParse (stripCodeFences (jsTrim raw)) = none) ∧
    extractJson "not json at all" = Except.error GenFailure.invalidJson ∧
    ∀ a : Json, retryLoop
        (fun i => if i = 0 then Except.error GenFailure.invalidJson else Except.ok a)
        maxRetries 0 = .succeeded a 2 := by
  refine ⟨fun raw => ?_, rfl, fun a => rfl⟩
  unfold extractJson
  cases h : jsonParse (stripCodeFences (jsTrim raw)) with
  | some v => simp
  | none => simp

/-- Claim C4 counterexample: the bare number text `42` has a non-object
top level, yet extraction succeeds with the parsed number instead of
failing with the invalid-format error. -/
theorem claim_C4_counterexample :
    extractJson "42" = Except.ok (Json.num 42) ∧
      extractJson "42" ≠ Except.error GenFailure.invalidJson := by
  refine ⟨rfl, fun h => ?_⟩
  exact Except.noConfusion h

/-- Claim C8: the output validator rejects servings = 0 and
servings = 101 and accepts servings = 1 and servings = 100 on an
otherwise schema-valid candidate. -/
theorem claim_C8 :
    (validateAIRecipe (servingsProbe 0)).isSome = false ∧
      (validateAIRecipe (servingsProbe 1)).isSome = true ∧
      (validateAIRecipe (servingsProbe 100)).isSome = true ∧
      (validateAIRecipe (servingsProbe 101)).isSome = false :=
  ⟨rfl, rfl, rfl, rfl⟩

/-- Claim C10: with the key configured, the first initializeGemini
call from the load-time state constructs the client and model exactly
once (one allocation), and any later call — the key still configured,
possibly even changed — returns that same model object and leaves the
state untouched, performing no reconstruction and reading no fresh
configuration; more generally any call on a state whose client exists
returns the stored model and the state unchanged. -/
theorem claim_C10 (key key' : String) (hk : key ≠ "") (hk' : key' ≠ "") :
    (∃ m st1,
      initializeGemini (some key) initialGeminiState = .ok (some m, st1) ∧
        st1.allocs = 1 ∧
        initializeGemini (some key') st1 = .ok (some m, st1)) ∧
    ∀ st : GeminiState, st.genAI.isSome = true →
      initializeGemini (some key') st = .ok (st.model, st) := by
  constructor
  · refine ⟨geminiModelOf ⟨key, 0⟩,
      { genAI := some ⟨key, 0⟩, model := some (geminiModelOf ⟨key, 0⟩),
        allocs := 1 }, ?_, rfl, ?_⟩
    · unfold initializeGemini initialGeminiState
      simp [hk]
    · unfold initializeGemini
      simp [hk']
  · intro st hst
    unfold initializeGemini
    cases hga : st.genAI with
    | none => rw [hga] at hst; exact absurd hst (by simp)
    | some c => simp [hk', hga]

/-- Claim C10 witness: concrete keys. -/
theorem claim_C10_witness :
    (∃ m st1,
      initializeGemini (some "gemini-key") initialGeminiState = .ok (some m, st1) ∧
        st1.allocs = 1 ∧
        initializeGemini (some "gemini-key-2") st1 = .ok (some m, st1)) ∧
    ∀ st : GeminiState, st.genAI.isSome = true →
      initializeGemini (some "gemini-key-2") st = .ok (st.model, st) :=
  claim_C10 "gemini-key" "gemini-key-2" (by decide) (by decide)

/-- Accumulator form of the last-binding lookup fold. -/
theorem foldlGet_acc (k : String) :
    ∀ (ys : List (String × Json)) (acc : Option Json),
      List.foldl (fun acc p => if p.1 = k then some p.2 else acc) acc ys
        = match List.foldl (fun acc p => if p.1 = k then some p.2 else acc) none ys with
          | some v => some v
          | none => acc := by
  intro ys
  induction ys with
  | nil => intro acc; rfl
  | cons y ys ih =>
    intro acc
    simp only [List.foldl_cons]
    rw [ih, ih (if y.1 = k then some y.2 else none)]
    cases h : List.foldl (fun acc p => if p.1 = k then some p.2 else acc) none ys with
    | some v => rfl
    | none => by_cases hy : y.1 = k <;> simp [hy]

/-- Lookup across an appended field list: the later segment wins. -/
theorem fieldsGet_append (xs ys : List (String × Json)) (k : String) :
    fieldsGet (xs ++ ys) k
      = match fieldsGet ys k with
        | some v => some v
        | none => fieldsGet xs k := by
  unfold fieldsGet
  rw [List.foldl_append]
  exact foldlGet_acc k ys _

/-- The assembled recipe document carries the three overriding
properties, whatever the artifact contained for them. -/
theorem buildRecipeDoc_overrides (artifact : Json) (uid : String) (params : Json) :
    jGet (buildRecipeDoc artifact uid params) "userId" = some (.str uid) ∧
      jGet (buildRecipeDoc artifact uid params) "isGenerated" = some (.bool true) ∧
      jGet (buildRecipeDoc artifact uid params) "generationParams" = some params := by
  cases artifact with
  | obj fs =>
    refine ⟨?_, ?_, ?_⟩ <;>
      · show fieldsGet (fs ++ _) _ = _
        rw [fieldsGet_append]
        rfl
  | null => exact ⟨rfl, rfl, rfl⟩
  | bool b => exact ⟨rfl, rfl, rfl⟩
  | num q => exact ⟨rfl, rfl, rfl⟩
  | str s => exact ⟨rfl, rfl, rfl⟩
  | arr xs => exact ⟨rfl, rfl, rfl⟩

/-- Claim C9: whenever the generation handler returns the 201 success,
the recipe document it persists and returns has userId equal to the
authenticated caller's uid, isGenerated = true, and generationParams
equal to the validated request parameters — the assembly overrides
whatever the AI candidate contained for these properties. -/
theorem claim_C9 (apiKey : Option String) (replies : Nat → ProviderReply)
    (uid : String) (params : Json) (r : Json) (n : Nat)
    (h : postGenerateHandler apiKey replies uid params = .created r n) :
    jGet r "userId" = some (.str uid) ∧
      jGet r "isGenerated" = some (.bool true) ∧
      jGet r "generationParams" = some params := by
  unfold postGenerateHandler at h
  cases hl : retryLoop (fun i => attemptGeneration apiKey (replies i)) maxRetries 0 with
  | succeeded a n' =>
    rw [hl] at h
    simp only [GenOutcome.created.injEq] at h
    rw [← h.1]
    exact buildRecipeDoc_overrides a uid params
  | failedAfterRetries n' => rw [hl] at h; exact GenOutcome.noConfusion h
  | brokeWithout => rw [hl] at h; exact GenOutcome.noConfusion h

set_option maxRecDepth 100000 in
/-- Claim C9 witness: a concrete end-to-end success (provider returns
well-formed artifact JSON, one attempt) whose document carries the
overridden uid, generation flag and parameters. -/
theorem claim_C9_witness :
    jGet e2eDoc "userId" = some (.str "user-1") ∧
      jGet e2eDoc "isGenerated" = some (.bool true) ∧
      jGet e2eDoc "generationParams" = some Json.null :=
  claim_C9 (some "api-key") (fun _ => .text e2eText) "user-1" Json.null
    e2eDoc 1 rfl

/-- Every string occurs in itself. -/
theorem strContains_self (s : String) : strContains s s :=
  ⟨[], [], by simp⟩

/-- Occurrence survives prepending. -/
theorem strContains_appendL (t hay needle : String)
    (h : strContains hay needle) : strContains (t ++ hay) needle := by
  obtain ⟨pre, post, hp⟩ := h
  exact ⟨t.data ++ pre, post, by rw [strDataAppend, hp]; simp [List.append_assoc]⟩

/-- Occurrence survives appending. -/
theorem strContains_appendR (hay t needle : String)
    (h : strContains hay needle) : strContains (hay ++ t) needle := by
  obtain ⟨pre, post, hp⟩ := h
  refine ⟨pre, post ++ t.data, ?_⟩
  rw [strDataAppend, hp]
  simp [List.append_assoc]

/-- Occurrence is transitive through an intermediate string. -/
theorem strContains_through (hay mid needle : String)
    (h1 : strContains hay mid) (h2 : strContains mid needle) :
    strContains hay needle := by
  obtain ⟨p1, s1, hp1⟩ := h1
  obtain ⟨p2, s2, hp2⟩ := h2
  refine ⟨p1 ++ p2, s2 ++ s1, ?_⟩
  rw [hp1, hp2]
  simp [List.append_assoc]

/-- A member of a joined list occurs verbatim in the join. -/
theorem joinSep_contains (sep : String) :
    ∀ (l : List String) (a : String), a ∈ l → strContains (joinSep sep l) a := by
  intro l
  induction l with
  | nil => intro a h; cases h
  | cons x rest ih =>
    intro a h
    cases rest with
    | nil =>
      have hx : a = x := by
        rcases List.mem_cons.mp h with h1 | h1
        · exact h1
        · cases h1
      rw [hx]
      exact strContains_self x
    | cons y ys =>
      rcases List.mem_cons.mp h with h1 | h1
      · rw [h1]
        show strContains ((x ++ sep) ++ joinSep sep (y :: ys)) x
        exact strContains_appendR _ _ x
          (strContains_appendR x sep x (strContains_self x))
      · show strContains ((x ++ sep) ++ joinSep sep (y :: ys)) a
        exact strContains_appendL (x ++ sep) _ a (ih a h1)

/-- When allergies are present, the strict allergy line appears in the
constraints array. -/
theorem allergyLine_mem (p : GenParams) (h : p.allergies ≠ []) :
    ("STRICT ALLERGIES (must avoid): " ++ joinSep ", " p.allergies)
      ∈ promptConstraints p := by
  unfold promptConstraints
  simp [h]

/-- Any constraint line occurs verbatim (dash-prefixed) in the built
prompt. -/
theorem prompt_contains_constraint (p : GenParams) (c : String)
    (hc : c ∈ promptConstraints p) : strContains (buildRecipePrompt p) c := by
  have h1 : ("- " ++ c) ∈ (promptConstraints p).map (fun x => "- " ++ x) :=
    List.mem_map_of_mem _ hc
  have h2 : strContains (joinSep "\n" ((promptConstraints p).map
      (fun x => "- " ++ x))) ("- " ++ c) :=
    joinSep_contains "\n" _ _ h1
  have h3 : strContains ("- " ++ c) c := by
    refine ⟨"- ".data, [], ?_⟩
    rw [strDataAppend]
    simp
  have h4 := strContains_through _ _ _ h2 h3
  unfold buildRecipePrompt
  refine strContains_appendR _ _ _ (strContains_appendR _ _ _
    (strContains_appendR _ _ _ (strContains_appendR _ _ _
    (strContains_appendR _ _ _ (strContains_appendR _ _ _
    (strContains_appendR _ _ _ (strContains_appendR _ _ _
    (strContains_appendL _ _ _ h4))))))))

/-- Claim C7: for a ConstraintSet with non-empty allergies, the built
prompt contains the strict-avoidance allergy line verbatim — the label
`STRICT ALLERGIES (must avoid): ` followed by the comma-joined allergy
terms — and contains every single allergy term verbatim; the line is
never omitted when allergies are present. -/
theorem claim_C7 (p : GenParams) (hne : p.allergies ≠ []) :
    strContains (buildRecipePrompt p)
        ("STRICT ALLERGIES (must avoid): " ++ joinSep ", " p.allergies) ∧
      ∀ a, a ∈ p.allergies → strContains (buildRecipePrompt p) a := by
  have hline := allergyLine_mem p hne
  refine ⟨prompt_contains_constraint p _ hline, fun a ha => ?_⟩
  have h1 : strContains ("STRICT ALLERGIES (must avoid): "
      ++ joinSep ", " p.allergies) a :=
    strContains_appendL _ _ _ (joinSep_contains ", " _ a ha)
  exact strContains_through _ _ _ (prompt_contains_constraint p _ hline) h1

/-- Claim C7 witness: the allergy term Peanuts occurs verbatim in the
prompt built for a ConstraintSet listing Peanuts and Shellfish. -/
theorem claim_C7_witness :
    strContains (buildRecipePrompt { allergies := ["Peanuts", "Shellfish"] })
      "Peanuts" :=
  (claim_C7 { allergies := ["Peanuts", "Shellfish"] } (by decide)).2
    "Peanuts" (by decide)

/-- Success of an Option bind splits into the two stage successes. -/
theorem optBindEqSome {α β : Type} (x : Option α) (f : α → Option β) (b : β) :
    (x >>= f) = some b ↔ ∃ a, x = some a ∧ f a = some b := by
  cases x with
  | none => simp [Bind.bind]
  | some v => simp [Bind.bind]

/-- A successful validateAIRecipe run splits into its four field
groups, the output being their concatenation. -/
theorem validateAIRecipe_shape (fs : List (String × Json)) (out : Json)
    (h : validateAIRecipe (.obj fs) = some out) :
    ∃ a b c d, aiFieldsA fs = some a ∧ aiFieldsB fs = some b ∧
      aiFieldsC fs = some c ∧ aiFieldsD fs = some d ∧
      out = .obj (a ++ b ++ c ++ d) := by
  unfold validateAIRecipe at h
  simp only [optBindEqSome, Option.some.injEq] at h
  obtain ⟨a, ha, b, hb, c, hc, d, hd, h⟩ := h
  exact ⟨a, b, c, d, ha, hb, hc, hd, h.symm⟩

/-- A successful createRecipeSchema run splits into its four field
groups. -/
theorem validateCreateRecipe_shape (fs : List (String × Json)) (out : Json)
    (h : validateCreateRecipe (.obj fs) = some out) :
    ∃ a b c d, createFieldsA fs = some a ∧ createFieldsB fs = some b ∧
      createFieldsC fs = some c ∧ createFieldsD fs = some d ∧
      out = .obj (a ++ b ++ c ++ d) := by
  unfold validateCreateRecipe at h
  simp only [optBindEqSome, Option.some.injEq] at h
  obtain ⟨a, ha, b, hb, c, hc, d, hd, h⟩ := h
  exact ⟨a, b, c, d, ha, hb, hc, hd, h.symm⟩

/-- Shape of the first AI field group, recording where the subtitle
value comes from. -/
theorem aiFieldsA_shape (fs : List (String × Json)) (a : List (String × Json))
    (h : aiFieldsA fs = some a) :
    ∃ t st dsc pt ct,
      fieldD asString "" (fieldsGet fs "subtitle") = some st ∧
      a = mkAIOutA t st dsc pt ct := by
  unfold aiFieldsA at h
  simp only [optBindEqSome, Option.some.injEq] at h
  obtain ⟨t, ht, st, hst, dsc, hdsc, pt, hpt, ct, hct, h⟩ := h
  exact ⟨t, st, dsc, pt, ct, hst, h.symm⟩

/-- Shape of the second AI field group, recording the origins of the
three defaulted fields. -/
theorem aiFieldsB_shape (fs : List (String × Json)) (b : List (String × Json))
    (h : aiFieldsB fs = some b) :
    ∃ sv cal diff tags cui img,
      fieldD (vArray asString) [] (fieldsGet fs "tags") = some tags ∧
      fieldD asString "International" (fieldsGet fs "cuisine") = some cui ∧
      fieldD asString "" (fieldsGet fs "imageUrl") = some img ∧
      b = mkAIOutB sv cal diff tags cui img := by
  unfold aiFieldsB at h
  simp only [optBindEqSome, Option.some.injEq] at h
  obtain ⟨sv, hsv, cal, hcal, diff, hdiff, tags, htags, cui, hcui, img, himg, h⟩ := h
  exact ⟨sv, cal, diff, tags, cui, img, htags, hcui, himg, h.symm⟩

/-- Shape of the third AI field group, recording the nutrition origin
and the dressingIngredients default. -/
theorem aiFieldsC_shape (fs : List (String × Json)) (c : List (String × Json))
    (h : aiFieldsC fs = some c) :
    ∃ nut ing dre stp,
      fieldReq vNutritionAI (fieldsGet fs "nutrition") = some nut ∧
      fieldD (vArray vIngredient) [] (fieldsGet fs "dressingIngredients") = some dre ∧
      c = mkAIOutC nut ing dre stp := by
  unfold aiFieldsC at h
  simp only [optBindEqSome, Option.some.injEq] at h
  obtain ⟨nut, hnut, ing, hing, dre, hdre, stp, hstp, h⟩ := h
  exact ⟨nut, ing, dre, stp, hnut, hdre, h.symm⟩

/-- Shape of the last AI field group, recording the origins of its four
defaulted fields. -/
theorem aiFieldsD_shape (fs : List (String × Json)) (d : List (String × Json))
    (h : aiFieldsD fs = some d) :
    ∃ shop yt vid gen,
      fieldD (vArray vShoppingCategory) [] (fieldsGet fs "shoppingList") = some shop ∧
      fieldD asString "" (fieldsGet fs "youtubeId") = some yt ∧
      fieldD asString "" (fieldsGet fs "videoUrl") = some vid ∧
      fieldD asBool true (fieldsGet fs "isGenerated") = some gen ∧
      d = mkAIOutD shop yt vid gen := by
  unfold aiFieldsD at h
  simp only [optBindEqSome, Option.some.injEq] at h
  obtain ⟨shop, hshop, yt, hyt, vid, hvid, gen, hgen, h⟩ := h
  exact ⟨shop, yt, vid, gen, hshop, hyt, hvid, hgen, h.symm⟩

/-- Shape of the AI nutrition output, recording the sodium and sugar
defaulting. -/
theorem vNutritionAI_shape (nfs : List (String × Json)) (nout : Json)
    (h : vNutritionAI (.obj nfs) = some nout) :
    ∃ pr cb ft fb so su sf ch,
      fieldD asString "0mg" (fieldsGet nfs "sodium") = some so ∧
      fieldD asString "0g" (fieldsGet nfs "sugar") = some su ∧
      nout = mkNutritionAIOut pr cb ft fb so su sf ch := by
  unfold vNutritionAI at h
  simp only [optBindEqSome, Option.some.injEq] at h
  obtain ⟨pr, hpr, cb, hcb, ft, hft, fb, hfb, so, hso, su, hsu, sf, hsf, ch, hch, h⟩ := h
  exact ⟨pr, cb, ft, fb, so, su, sf, ch, hso, hsu, h.symm⟩

/-- Shape of the last createRecipeSchema field group, recording the
isGenerated defaulting. -/
theorem createFieldsD_shape (fs : List (String × Json)) (d : List (String × Json))
    (h : createFieldsD fs = some d) :
    ∃ shop yt vid gen gp,
      fieldD asBool false (fieldsGet fs "isGenerated") = some gen ∧
      d = mkCreateOutD shop yt vid gen gp := by
  unfold createFieldsD at h
  simp only [optBindEqSome, Option.some.injEq] at h
  obtain ⟨shop, hshop, yt, hyt, vid, hvid, gen, hgen, gp, hgp, h⟩ := h
  exact ⟨shop, yt, vid, gen, gp, hgen, h.symm⟩

/-- Appending an entry for an absent-able field with a different key
does not change a lookup. -/
theorem fieldsGet_append_optEntry_ne (xs : List (String × Json))
    (k k' : String) (v : Option Json) (h : k ≠ k') :
    fieldsGet (xs ++ optEntry k v) k' = fieldsGet xs k' := by
  cases v with
  | none => simp [optEntry]
  | some j =>
    rw [show optEntry k (some j) = [(k, j)] from rfl, fieldsGet_append]
    have hone : fieldsGet [(k, j)] k' = none := by
      unfold fieldsGet
      simp [h]
    rw [hone]

/-- A lookup finds an entry appended for its own key. -/
theorem fieldsGet_append_singleton (xs : List (String × Json))
    (k : String) (v : Json) :
    fieldsGet (xs ++ [(k, v)]) k = some v := by
  rw [fieldsGet_append]
  have hone : fieldsGet [(k, v)] k = some v := by
    unfold fieldsGet
    simp
  rw [hone]

/-- Claim C6 (amended): every optional field that carries a declared
default receives it when the candidate leaves it unspecified —
subtitle, imageUrl, youtubeId and videoUrl become the empty string,
tags, dressingIngredients and shoppingList the empty array, cuisine
the string International, isGenerated true, and in the nutrition
sub-object sodium becomes 0mg and sugar 0g.  (Optional fields without
a declared default — saturatedFat, cholesterol, ingredient id, step
tip/duration/imageUrl — stay absent; see the counterexample.) -/
theorem claim_C6 :
    (∀ (fs : List (String × Json)) (out : Json),
      validateAIRecipe (.obj fs) = some out →
      (fieldsGet fs "subtitle" = none → jGet out "subtitle" = some (.str "")) ∧
      (fieldsGet fs "tags" = none → jGet out "tags" = some (.arr [])) ∧
      (fieldsGet fs "cuisine" = none →
        jGet out "cuisine" = some (.str "International")) ∧
      (fieldsGet fs "imageUrl" = none → jGet out "imageUrl" = some (.str "")) ∧
      (fieldsGet fs "dressingIngredients" = none →
        jGet out "dressingIngredients" = some (.arr [])) ∧
      (fieldsGet fs "shoppingList" = none →
        jGet out "shoppingList" = some (.arr [])) ∧
      (fieldsGet fs "youtubeId" = none → jGet out "youtubeId" = some (.str "")) ∧
      (fieldsGet fs "videoUrl" = none → jGet out "videoUrl" = some (.str "")) ∧
      (fieldsGet fs "isGenerated" = none →
        jGet out "isGenerated" = some (.bool true))) ∧
    (∀ (nfs : List (String × Json)) (nout : Json),
      vNutritionAI (.obj nfs) = some nout →
      (fieldsGet nfs "sodium" = none → jGet nout "sodium" = some (.str "0mg")) ∧
      (fieldsGet nfs "sugar" = none → jGet nout "sugar" = some (.str "0g"))) := by
  constructor
  · intro fs out h
    obtain ⟨a, b, c, d, ha, hb, hc, hd, hout⟩ := validateAIRecipe_shape fs out h
    obtain ⟨t, st, dsc, pt, ct, hst, haeq⟩ := aiFieldsA_shape fs a ha
    obtain ⟨sv, cal, diff, tags, cui, img, htags, hcui, himg, hbeq⟩ :=
      aiFieldsB_shape fs b hb
    obtain ⟨nut, ing, dre, stp, hnut, hdre, hceq⟩ := aiFieldsC_shape fs c hc
    obtain ⟨shop, yt, vid, gen, hshop, hyt, hvid, hgen, hdeq⟩ :=
      aiFieldsD_shape fs d hd
    subst haeq hbeq hceq hdeq hout
    refine ⟨?_, ?_, ?_, ?_, ?_, ?_, ?_, ?_, ?_⟩
    · intro habs
      rw [habs] at hst
      simp only [fieldD, Option.some.injEq] at hst
      subst hst
      rfl
    · intro habs
      rw [habs] at htags
      simp only [fieldD, Option.some.injEq] at htags
      subst htags
      rfl
    · intro habs
      rw [habs] at hcui
      simp only [fieldD, Option.some.injEq] at hcui
      subst hcui
      rfl
    · intro habs
      rw [habs] at himg
      simp only [fieldD, Option.some.injEq] at himg
      subst himg
      rfl
    · intro habs
      rw [habs] at hdre
      simp only [fieldD, Option.some.injEq] at hdre
      subst hdre
      rfl
    · intro habs
      rw [habs] at hshop
      simp only [fieldD, Option.some.injEq] at hshop
      subst hshop
      rfl
    · intro habs
      rw [habs] at hyt
      simp only [fieldD, Option.some.injEq] at hyt
      subst hyt
      rfl
    · intro habs
      rw [habs] at hvid
      simp only [fieldD, Option.some.injEq] at hvid
      subst hvid
      rfl
    · intro habs
      rw [habs] at hgen
      simp only [fieldD, Option.some.injEq] at hgen
      subst hgen
      rfl
  · intro nfs nout h
    obtain ⟨pr, cb, ft, fb, so, su, sf, ch, hso, hsu, hneq⟩ :=
      vNutritionAI_shape nfs nout h
    subst hneq
    constructor
    · intro habs
      rw [habs] at hso
      simp only [fieldD, Option.some.injEq] at hso
      subst hso
      cases sf <;> cases ch <;> rfl
    · intro habs
      rw [habs] at hsu
      simp only [fieldD, Option.some.injEq] at hsu
      subst hsu
      cases sf <;> cases ch <;> rfl

/-- Claim C6 counterexample: the schema-valid candidate with every
optional field unspecified is accepted, yet its validated output's
nutrition object leaves the optional saturatedFat field absent
(undefined) instead of filling it — so not every optional field of
the validated output is defined. -/
theorem claim_C6_counterexample :
    (validateAIRecipe (servingsProbe 4)).isSome = true ∧
      ((validateAIRecipe (servingsProbe 4)).bind
        (fun out => jGet out "nutrition")).bind
        (fun n => jGet n "saturatedFat") = none :=
  ⟨rfl, rfl⟩

/-- Claim C6 witness: the same concrete candidate exercises the
amended theorem — its absent subtitle and isGenerated come back as
the defaults. -/
theorem claim_C6_witness :
    jGet ((validateAIRecipe (servingsProbe 4)).getD .null) "subtitle"
        = some (.str "") ∧
      jGet ((validateAIRecipe (servingsProbe 4)).getD .null) "isGenerated"
        = some (.bool true) := by
  have h := (claim_C6.1 (servingsProbeFields 4)
    ((validateAIRecipe (servingsProbe 4)).getD .null) rfl)
  exact ⟨h.1 rfl, h.2.2.2.2.2.2.2.2 rfl⟩

/-- Claim C3 (amended): the generation path and the manual-authoring
path use two distinct validators (aiRecipeSchema versus
createRecipeSchema), not one reused verbatim: on any candidate that
both accept and that leaves isGenerated unspecified, the generation
validator outputs isGenerated = true while the manual validator
outputs isGenerated = false, so the resulting artifacts differ (they
further differ in sodium/sugar/cuisine/subtitle defaulting, title
trimming and URL checking). -/
theorem claim_C3 (fs : List (String × Json)) (outA outC : Json)
    (hA : validateAIRecipe (.obj fs) = some outA)
    (hC : validateCreateRecipe (.obj fs) = some outC)
    (habs : fieldsGet fs "isGenerated" = none) :
    jGet outA "isGenerated" = some (.bool true) ∧
      jGet outC "isGenerated" = some (.bool false) ∧
      outA ≠ outC := by
  obtain ⟨a, b, c, d, ha, hb, hc, hd, houtA⟩ := validateAIRecipe_shape fs outA hA
  obtain ⟨shop, yt, vid, gen, hshop, hyt, hvid, hgen, hdeq⟩ :=
    aiFieldsD_shape fs d hd
  rw [habs] at hgen
  simp only [fieldD, Option.some.injEq] at hgen
  subst hgen
  subst hdeq houtA
  obtain ⟨a', b', c', d', ha', hb', hc', hd', houtC⟩ :=
    validateCreateRecipe_shape fs outC hC
  obtain ⟨shop', yt', vid', gen', gp', hgen', hdeq'⟩ :=
    createFieldsD_shape fs d' hd'
  rw [habs] at hgen'
  simp only [fieldD, Option.some.injEq] at hgen'
  subst hgen'
  subst hdeq' houtC
  have h1 : jGet (Json.obj (a ++ b ++ c ++ mkAIOutD shop yt vid true))
      "isGenerated" = some (.bool true) := by
    show fieldsGet ((a ++ b ++ c) ++ mkAIOutD shop yt vid true) "isGenerated" = _
    rw [fieldsGet_append]
    rfl
  have h2 : jGet (Json.obj (a' ++ b' ++ c' ++ mkCreateOutD shop' yt' vid' false gp'))
      "isGenerated" = some (.bool false) := by
    show fieldsGet ((a' ++ b' ++ c') ++ mkCreateOutD shop' yt' vid' false gp')
      "isGenerated" = _
    rw [fieldsGet_append]
    have hD : fieldsGet (mkCreateOutD shop' yt' vid' false gp') "isGenerated"
        = some (.bool false) := by
      unfold mkCreateOutD
      rw [fieldsGet_append_optEntry_ne _ _ _ _ (by decide)]
      exact fieldsGet_append_singleton _ _ _
    rw [hD]
  refine ⟨h1, h2, fun heq => ?_⟩
  rw [heq] at h1
  rw [h1] at h2
  simp only [Option.some.injEq] at h2
  exact Json.noConfusion h2 (fun hb => Bool.noConfusion hb)

/-- Claim C3 counterexample: a candidate both validators accept (all
URL-checked and defaulted fields unspecified) yields different
artifacts on the two paths — the generation path sets
isGenerated = true, the manual path isGenerated = false — so the
output validator of the generation path is not the validator of the
manual path reused verbatim with the same resulting artifact. -/
theorem claim_C3_counterexample :
    (validateAIRecipe (servingsProbe 4)).bind (fun o => jGet o "isGenerated")
        = some (.bool true) ∧
      (validateCreateRecipe (servingsProbe 4)).bind (fun o => jGet o "isGenerated")
        = some (.bool false) ∧
      validateAIRecipe (servingsProbe 4) ≠ validateCreateRecipe (servingsProbe 4) := by
  refine ⟨rfl, rfl, fun h => ?_⟩
  have h2 : (some (Json.bool true) : Option Json) = some (Json.bool false) := by
    have h1 := congrArg
      (fun o => Option.bind o (fun j => jGet j "isGenerated")) h
    exact h1
  simp only [Option.some.injEq] at h2
  exact Json.noConfusion h2 (fun hb => Bool.noConfusion hb)

/-- Claim C3 witness: the amended theorem applied to the concrete
probe candidate accepted by both validators. -/
theorem claim_C3_witness :
    jGet ((validateAIRecipe (servingsProbe 4)).getD .null) "isGenerated"
        = some (.bool true) ∧
      jGet ((validateCreateRecipe (servingsProbe 4)).getD .null) "isGenerated"
        = some (.bool false) ∧
      (validateAIRecipe (servingsProbe 4)).getD .null
        ≠ (validateCreateRecipe (servingsProbe 4)).getD .null :=
  claim_C3 (servingsProbeFields 4)
    ((validateAIRecipe (servingsProbe 4)).getD .null)
    ((validateCreateRecipe (servingsProbe 4)).getD .null)
    rfl rfl rfl

end RecipeNourish
